import Mathlib

/-!
Verification of the Gemini-Cut video composition pipeline.

Shallow embedding of the Python source:
* `src/editing/plan_validation.py` — `normalize_segments`, `clamp_duration_to_range`
* `src/editing/ffmpeg_engine.py`   — `apply_transitions` filter graph, `render_final` audio graph
* `src/app.py`                     — `validate_opts`, `normalize_transition_type`,
                                     the render fallback cascade and the output integrity check
                                     in `process_job` / `render_video_pipeline`.

Python floats are modelled as rationals (all arithmetic involved is order
comparison, `max`/`min`, addition and subtraction, which agree with the float
semantics on the inputs considered); dictionaries carrying segment data are
modelled as structures; external processes (ffmpeg/ffprobe invocations,
`inspect_video`) are modelled as oracle parameters; a raised exception is
modelled as an `Except.error` value.
-/

/-- A plan segment: Python dict `{"start": ..., "end": ..., "reason": ...}`.
`end` is a Lean keyword, hence the guillemets.  The `reason` field stands for
the payload carried along unchanged by `{**seg, ...}` updates. -/
structure Segment where
  start : ℚ
  «end» : ℚ
  reason : String
deriving DecidableEq

/-- `sum(seg["end"] - seg["start"] for seg in segments)`. -/
def total_duration (segments : List Segment) : ℚ :=
  (segments.map (fun s => s.«end» - s.start)).sum

/-- The loop body of `normalize_segments` (src/editing/plan_validation.py,
lines 7-18): iterate over the sorted list tracking `last_end`; drop degenerate
segments (`end <= start`); clamp `start` up to `last_end`; drop segments whose
clamped length is below `min_len`; otherwise keep and advance `last_end`. -/
def norm_loop (min_len : ℚ) : List Segment → ℚ → List Segment
  | [], _ => []
  | seg :: rest, last_end =>
    if seg.«end» ≤ seg.start then
      norm_loop min_len rest last_end
    else
      let start := if seg.start < last_end then last_end else seg.start
      if seg.«end» - start < min_len then
        norm_loop min_len rest last_end
      else
        { seg with start := start } :: norm_loop min_len rest seg.«end»

/-- `normalize_segments(segments, min_len)` from src/editing/plan_validation.py:
sort by `start` ascending (Python's stable sort; insertion sort is stable in the
same sense), then run the normalization loop with `last_end = 0.0`. -/
def normalize_segments (segments : List Segment) (min_len : ℚ) : List Segment :=
  norm_loop min_len (List.insertionSort (fun a b => a.start ≤ b.start) segments) 0

/-- The trimming loop of `clamp_duration_to_range` (src/editing/plan_validation.py,
lines 29-40), returning the trimmed list together with the final `running` total.
The Python `break` is modelled by the recursion stopping in the `else` branch. -/
def clamp_loop (target_s min_total : ℚ) : List Segment → ℚ → List Segment × ℚ
  | [], running => ([], running)
  | seg :: rest, running =>
    let seg_len := seg.«end» - seg.start
    if running + seg_len ≤ target_s then
      let tr := clamp_loop target_s min_total rest (running + seg_len)
      (seg :: tr.1, tr.2)
    else
      let remaining := max (target_s - running) (min_total - running)
      if (0.4 : ℚ) ≤ remaining then
        ([{ seg with «end» := seg.start + remaining }], running + remaining)
      else
        ([], running)

/-- `clamp_duration_to_range(segments, target_s, min_total, max_total)` from
src/editing/plan_validation.py lines 22-43: return the input unchanged when its
total already fits under `max_total`; otherwise greedily trim, and reject the
trim (returning the unclamped input) when the trimmed total is below `min_total`. -/
def clamp_duration_to_range (segments : List Segment) (target_s min_total max_total : ℚ) :
    List Segment × ℚ :=
  let total := total_duration segments
  if total ≤ max_total then (segments, total)
  else
    let tr := clamp_loop target_s min_total segments 0
    if tr.2 < min_total then (segments, total) else tr

/-- Invariant of the normalization loop output relative to an incoming
`last_end` bound: every kept segment starts no earlier than the bound, has
length at least `min_len`, and bounds the rest of the list by its own end. -/
def NormChain (min_len : ℚ) : ℚ → List Segment → Prop
  | _, [] => True
  | le, s :: rest =>
      le ≤ s.start ∧ min_len ≤ s.«end» - s.start ∧ NormChain min_len s.«end» rest

/-- One `xfade` stage of the cross-fade filter graph built by `apply_transitions`
(src/editing/ffmpeg_engine.py lines 111-123).  The Python string
`{last}[{idx}:v]xfade=transition={t}:duration={d}:offset={o}[v{idx}]` is
represented structurally: `src` is the left input label, `clipLabel` the right
input label `[idx:v]`, and `outLabel` the produced label `[vidx]`. -/
structure XfadeEntry where
  src : String
  clipLabel : String
  transition : String
  duration : ℚ
  offset : ℚ
  outLabel : String
deriving DecidableEq

/-- The `transitions` dict of `apply_transitions`: logical transition name to
ffmpeg xfade operator; lookups fall back to `"fade"` via `dict.get`. -/
def transitions_map : List (String × String) :=
  [("fade", "fade"), ("crossfade", "fade"), ("dip_black", "fadeblack"), ("swipe", "wipeleft")]

/-- The `for idx in range(1, len(clip_paths))` loop of `apply_transitions`:
emits one xfade entry per remaining clip, threading the chained label and the
running offset, which advances by `durations[idx] - duration` after each merge. -/
def xfade_loop (transition : String) (duration : ℚ) :
    List ℚ → ℕ → String → ℚ → List XfadeEntry
  | [], _, _, _ => []
  | dur :: rest, idx, last, offset =>
    ⟨last, s!"[{idx}:v]", transition, duration, offset, s!"[v{idx}]"⟩ ::
      xfade_loop transition duration rest (idx + 1) (s!"[v{idx}]") (offset + (dur - duration))

/-- The ffmpeg invocation produced by the transition stage: either a stream-copy
concat of an ordered clip list (`concat_clips`) or a cross-fade filter graph. -/
inductive TransitionPlan where
  | concat (clips : List String) (output : String)
  | xfade (entries : List XfadeEntry) (output : String)
deriving DecidableEq

/-- `apply_transitions` (src/editing/ffmpeg_engine.py lines 98-125) as a plan:
with `transition_type == "none"` or fewer than 2 clips it concatenates by stream
copy; otherwise it builds the chained xfade graph.  `probe` models
`_probe_duration` (an ffprobe call) on each clip path. -/
def apply_transitions (probe : String → ℚ) (clip_paths : List String)
    (transition_type : String) (duration : ℚ) (output_path : String) : TransitionPlan :=
  if transition_type = "none" ∨ clip_paths.length < 2 then
    .concat clip_paths output_path
  else
    let transition := (transitions_map.lookup transition_type).getD "fade"
    let durations := clip_paths.map probe
    .xfade (xfade_loop transition duration durations.tail 1 "[0:v]"
      (durations.headD 0 - duration)) output_path

/-- The transition step of `render_video_pipeline` (src/app.py lines 433-443):
`try: apply_transitions(...) except Exception: concat_clips(clip_paths, ...)`.
`raises` models whether executing the generated plan throws. -/
def transition_step (probe : String → ℚ) (raises : TransitionPlan → Bool)
    (clip_paths : List String) (transition_type : String) (duration : ℚ)
    (output_path : String) : TransitionPlan :=
  let plan := apply_transitions probe clip_paths transition_type duration output_path
  if raises plan then .concat clip_paths output_path else plan

/-- The options consulted by the fallback cascade of `process_job`: the three
fields the cascade overrides, plus an opaque `rest` payload standing for every
other key of the Python options dict (carried unchanged by `{**opts, ...}`). -/
structure RenderOpts (α : Type) where
  ai_visuals_enabled : Bool
  transition_type : String
  captions_enabled : Bool
  rest : α
deriving DecidableEq

/-- `fallback_opts = {**opts, "ai_visuals_enabled": False, "transition_type": "none"}`
(src/app.py line 599). -/
def fallback_opts1 {α : Type} (opts : RenderOpts α) : RenderOpts α :=
  { opts with ai_visuals_enabled := false, transition_type := "none" }

/-- The second fallback: the same dict additionally mutated by
`fallback_opts["captions_enabled"] = False` (src/app.py line 605). -/
def fallback_opts2 {α : Type} (opts : RenderOpts α) : RenderOpts α :=
  { fallback_opts1 opts with captions_enabled := false }

/-- The nested try/except cascade of `process_job` (src/app.py lines 594-608).
`attempt` models `render_video_pipeline` on given options and normalized
segments, returning the output path or the raised exception message; all three
calls receive the same segment list, exactly as in the source. -/
def attempt_chain {α β : Type} (attempt : RenderOpts α → List Segment → Except String β)
    (opts : RenderOpts α) (segments : List Segment) : Except String β :=
  match attempt opts segments with
  | .ok o => .ok o
  | .error _ =>
    match attempt (fallback_opts1 opts) segments with
    | .ok o => .ok o
    | .error _ => attempt (fallback_opts2 opts) segments

/-- Frame dimensions as reported by `inspect_video`. -/
structure Dim where
  width : ℕ
  height : ℕ
deriving DecidableEq

/-- Outcome of the rendering portion of `process_job`: `done` with the output, or
`failed` carrying the propagated exception message recorded by the outer
handler. -/
inductive JobOutcome (β : Type) where
  | done (output : β)
  | failed (msg : String)
deriving DecidableEq

/-- The rendering portion of `process_job` (src/app.py lines 594-616): run the
fallback cascade, then the output integrity check
`if output_info.width < source_info.width or output_info.height < source_info.height:
raise RuntimeError("Output resolution lower than source.")`.  `inspect` models
`inspect_video` on the produced output; `srcDim` is `inspect_video(render_source)`. -/
def process_render {α β : Type} (attempt : RenderOpts α → List Segment → Except String β)
    (inspect : β → Dim) (srcDim : Dim) (opts : RenderOpts α) (segments : List Segment) :
    JobOutcome β :=
  match attempt_chain attempt opts segments with
  | .error e => .failed e
  | .ok out =>
    if (inspect out).width < srcDim.width ∨ (inspect out).height < srcDim.height then
      .failed "Output resolution lower than source."
    else
      .done out

/-- One resolved sound-effect item `{"path": ..., "start": ..., "volume": ...}`. -/
structure SfxItem where
  path : String
  start : ℚ
  volume : ℚ
deriving DecidableEq

/-- The options consulted by the audio-graph portion of `render_final`
(src/editing/ffmpeg_engine.py lines 169-253). -/
structure RenderFinalOpts where
  audio_enhance : Bool
  audio_loudnorm : Bool
  audio_compressor : Bool
  audio_denoise : Bool
  voiceover_enabled : Bool
  voiceover_path : Option String
  voiceover_speed : ℚ
  voiceover_pre_sped : Bool
  voiceover_mode : String
  music_enabled : Bool
  music_file : Option String
  music_volume : ℚ
  music_ducking : Bool
  sfx_items : List SfxItem
deriving DecidableEq

/-- Python truthiness of an optional path: `None` and `""` are falsy. -/
def truthy_path : Option String → Option String
  | none => none
  | some p => if p = "" then none else some p

/-- `voiceover_path = opts.get("voiceover_path") if opts.get("voiceover_enabled") else None`,
as consumed by `if voiceover_path:`. -/
def active_voiceover (opts : RenderFinalOpts) : Option String :=
  if opts.voiceover_enabled then truthy_path opts.voiceover_path else none

/-- `music_file = opts.get("music_file") if opts.get("music_enabled") else None`. -/
def active_music (opts : RenderFinalOpts) : Option String :=
  if opts.music_enabled then truthy_path opts.music_file else none

/-- `voiceover_idx = 1` when a voiceover input is attached, else `None`. -/
def voiceover_idx (opts : RenderFinalOpts) : Option ℕ :=
  if (active_voiceover opts).isSome then some 1 else none

/-- `music_idx = 2 if voiceover_path else 1` when a music input is attached,
else `None`. -/
def music_idx (opts : RenderFinalOpts) : Option ℕ :=
  if (active_music opts).isSome then
    (if (active_voiceover opts).isSome then some 2 else some 1)
  else none

/-- One entry of the `filter_complex` list built by `render_final`, represented
structurally instead of as an ffmpeg filter string: `atempo` is
`[in]atempo={speed}[out]`; `amix2 a b out` is
`{a}{b}amix=inputs=2:duration=first:dropout_transition=2[out]`; `sidechain m s out`
is `{m}{s}sidechaincompress=threshold=0.08:ratio=8[out]`; `adelay_volume` is
`[idx:a]adelay={ms}|{ms},volume={v}[label]`; `volume` is `[idx:a]volume={v}[music]`;
`amixN` is the n-input voice+SFX mix; `afilter` appends the enhancement chain. -/
inductive AStage where
  | atempo (inLabel : String) (speed : ℚ) (outLabel : String)
  | amix2 (in1 in2 : String) (outLabel : String)
  | sidechain (mainIn scIn : String) (outLabel : String)
  | adelay_volume (inLabel : String) (delayMs : ℤ) (vol : ℚ) (outLabel : String)
  | volume (inLabel : String) (vol : ℚ) (outLabel : String)
  | amixN (ins : List String) (outLabel : String)
  | afilter (inLabel : String) (chain : List String) (outLabel : String)
deriving DecidableEq

def AStage.is_atempo : AStage → Bool
  | .atempo _ _ _ => true
  | _ => false

/-- `int(float(item.get("start", 0)) * 1000)`: truncation toward zero. -/
def ms_of (q : ℚ) : ℤ := Int.tdiv (q * 1000).num ((q * 1000).den : ℤ)

/-- The `audio_filters` list of `render_final` (lines 176-184): the
`audio_enhance` umbrella contributes `loudnorm, compand`, then the individual
loudnorm / compressor / denoise flags append their stages in a fixed order. -/
def audio_filter_list (opts : RenderFinalOpts) : List String :=
  (if opts.audio_enhance then ["loudnorm", "compand"] else []) ++
    (if opts.audio_loudnorm then ["loudnorm"] else []) ++
    (if opts.audio_compressor then ["compand"] else []) ++
    (if opts.audio_denoise then ["afftdn"] else [])

/-- The voiceover tempo adjustment (lines 204-209): when not pre-sped and
`abs(voiceover_speed - 1.0) > 0.01`, emit `[1:a]atempo=...[vo]` with the speed
clamped by `max(0.5, min(2.0, voiceover_speed))`, and use `[vo]` downstream;
otherwise use the raw `[1:a]`. -/
def voice_input_stages (opts : RenderFinalOpts) : List AStage × String :=
  if opts.voiceover_pre_sped = false ∧ (1/100 : ℚ) < |opts.voiceover_speed - 1| then
    ([AStage.atempo "[1:a]" (max (1/2) (min 2 opts.voiceover_speed)) "[vo]"], "[vo]")
  else
    ([], "[1:a]")

/-- The voiceover block of `render_final` (lines 202-225): `replace` passes the
voiceover stream through, `mix` mixes it with the base `[0:a]`, and the
remaining branch (reached with `mode = "duck"` after validation) sidechain-
compresses the base against the voiceover and then mixes. -/
def voice_section (opts : RenderFinalOpts) : List AStage × String :=
  match active_voiceover opts with
  | none => ([], "[0:a]")
  | some _ =>
    let vi := voice_input_stages opts
    if opts.voiceover_mode = "replace" then vi
    else if opts.voiceover_mode = "mix" then
      (vi.1 ++ [AStage.amix2 "[0:a]" vi.2 "[voice]"], "[voice]")
    else
      (vi.1 ++ [AStage.sidechain "[0:a]" vi.2 "[ducked]",
        AStage.amix2 "[ducked]" vi.2 "[voice]"], "[voice]")

/-- `sfx_start = music_idx + 1 if music_idx is not None else
(voiceover_idx + 1 if voiceover_idx is not None else 1)` (line 229). -/
def sfx_start_idx (opts : RenderFinalOpts) : ℕ :=
  match music_idx opts with
  | some m => m + 1
  | none =>
    match voiceover_idx opts with
    | some v => v + 1
    | none => 1

/-- The SFX block of `render_final` (lines 227-243): each item is delayed and
volume-scaled into `[sfx{i}]`, then all are mixed with the current voice label
into `[voice_sfx]`. -/
def sfx_section (opts : RenderFinalOpts) (voice_label : String) : List AStage × String :=
  if opts.sfx_items = [] then ([], voice_label)
  else
    let delays := opts.sfx_items.enum.map (fun p =>
      AStage.adelay_volume (s!"[{sfx_start_idx opts + p.1}:a]") (ms_of p.2.start)
        p.2.volume (s!"[sfx{p.1}]"))
    let labels := (List.range opts.sfx_items.length).map (fun off => s!"[sfx{off}]")
    (delays ++ [AStage.amixN (voice_label :: labels) "[voice_sfx]"], "[voice_sfx]")

/-- The music block of `render_final` (lines 245-258): volume-scale the music
input, then either sidechain-duck it against the voice mix or mix directly. -/
def music_section (opts : RenderFinalOpts) (voice_label : String) : List AStage × String :=
  match music_idx opts with
  | none => ([], voice_label)
  | some m =>
    if opts.music_ducking then
      ([AStage.volume (s!"[{m}:a]") opts.music_volume "[music]",
        AStage.sidechain "[music]" voice_label "[ducked]",
        AStage.amix2 voice_label "[ducked]" "[aout]"], "[aout]")
    else
      ([AStage.volume (s!"[{m}:a]") opts.music_volume "[music]",
        AStage.amix2 voice_label "[music]" "[aout]"], "[aout]")

/-- The enhancement tail (lines 260-262): when any audio filter is enabled,
append `{audio_map}{filters}[afinal]`. -/
def enh_section (opts : RenderFinalOpts) (audio_map : String) : List AStage × String :=
  if audio_filter_list opts = [] then ([], audio_map)
  else ([AStage.afilter audio_map (audio_filter_list opts) "[afinal]"], "[afinal]")

/-- The full `filter_complex` list of `render_final` together with the final
audio map label, assembled in the exact append order of the source: voiceover
stages, SFX stages, music stages, enhancement stage. -/
def build_audio_graph (opts : RenderFinalOpts) : List AStage × String :=
  let v := voice_section opts
  let s := sfx_section opts v.2
  let m := music_section opts s.2
  let e := enh_section opts m.2
  (v.1 ++ s.1 ++ m.1 ++ e.1, e.2)

/-- A concrete option set with a voiceover at speed 1.005 (within the 0.01
tolerance): used to exhibit the C7 counterexample. -/
def atempo_cex_opts : RenderFinalOpts :=
  { audio_enhance := false, audio_loudnorm := false, audio_compressor := false,
    audio_denoise := false, voiceover_enabled := true, voiceover_path := some "vo.mp3",
    voiceover_speed := 1.005, voiceover_pre_sped := false, voiceover_mode := "replace",
    music_enabled := false, music_file := none, music_volume := 0.15,
    music_ducking := false, sfx_items := [] }

/-- A concrete option set in duck mode, used as the C6 witness input. -/
def duck_witness_opts : RenderFinalOpts :=
  { audio_enhance := false, audio_loudnorm := false, audio_compressor := false,
    audio_denoise := false, voiceover_enabled := true, voiceover_path := some "vo.mp3",
    voiceover_speed := 1, voiceover_pre_sped := false, voiceover_mode := "duck",
    music_enabled := false, music_file := none, music_volume := 0.15,
    music_ducking := false, sfx_items := [] }

/-- A concrete option set with a voiceover at speed 1.5, used as the C7 witness
input. -/
def atempo_witness_opts : RenderFinalOpts :=
  { audio_enhance := false, audio_loudnorm := false, audio_compressor := false,
    audio_denoise := false, voiceover_enabled := true, voiceover_path := some "vo.mp3",
    voiceover_speed := 1.5, voiceover_pre_sped := false, voiceover_mode := "replace",
    music_enabled := false, music_file := none, music_volume := 0.15,
    music_ducking := false, sfx_items := [] }

/-- The allow-lists of src/app.py lines 106-120. -/
def ALLOWED_PLATFORMS : List String := ["Shorts", "TikTok", "Reels"]

def ALLOWED_STYLES : List String := ["Energique", "Pro", "Storytelling", "Tutorial"]

def ALLOWED_CUTS : List String := ["Soft", "Medium", "Hard"]

def ALLOWED_LANGS : List String := ["FR", "EN"]

def ALLOWED_CAPTIONS : List String := ["ON", "OFF"]

def ALLOWED_RES : List String := ["1080x1920", "720x1280"]

def ALLOWED_PRESETS : List String := ["auto", "podcast", "facecam", "screen", "vlog"]

def ALLOWED_REFRAME : List String := ["center", "smart"]

def ALLOWED_FPS : List ℤ := [24, 30, 60]

def ALLOWED_FILTERS : List String :=
  ["none", "clean", "cinematic", "vibrant", "bw", "retro", "sharp", "soft"]

def ALLOWED_CAPTION_TEMPLATES : List String :=
  ["tiktok_bold", "minimal", "creator", "high_contrast"]

def ALLOWED_CAPTION_POSITIONS : List String := ["bottom", "center", "top"]

def ALLOWED_CAPTION_SIZES : List String := ["sm", "md", "lg"]

def ALLOWED_TRANSITIONS : List String := ["auto", "none", "fade", "crossfade", "dip_black", "swipe"]

def ALLOWED_VOICEOVER_MODES : List String := ["replace", "mix", "duck"]

/-- The `aliases` dict of `normalize_transition_type` (src/app.py lines 128-139). -/
def transition_aliases : List (String × String) :=
  [("auto (gemini)", "auto"), ("auto_gemini", "auto"), ("cross-fade", "crossfade"),
   ("cross fade", "crossfade"), ("dip to black", "dip_black"), ("dip_black", "dip_black"),
   ("swipe", "swipe"), ("fade", "fade"), ("none", "none"), ("auto", "auto")]

/-- `normalize_transition_type` (src/app.py lines 124-142): `None` maps to
`"auto"`; otherwise the value is stripped and lower-cased, mapped through the
alias table when listed, and returned verbatim when not. -/
def normalize_transition_type : Option String → String
  | none => "auto"
  | some v =>
    let normalized := v.trim.toLower
    (transition_aliases.lookup normalized).getD normalized

/-- The request option fields read by `validate_opts` (src/app.py lines 145-180).
`transition_type` and `voiceover_mode` are `Option` because the source reads
them with `opts.get(...)`. -/
structure RequestOpts where
  duration_s : ℚ
  platform : String
  style : String
  cut_intensity : String
  language : String
  captions : String
  resolution : String
  content_preset : String
  output_resolution : String
  reframe_mode : String
  fps : ℤ
  filter_preset : String
  caption_template : String
  caption_position : String
  caption_size : String
  transition_type : Option String
  voiceover_mode : Option String
deriving DecidableEq

/-- `opts.get("voiceover_mode") not in ALLOWED_VOICEOVER_MODES` raises; `None` is
never a member, so validation demands a present, allowed mode. -/
def voiceover_mode_ok (m : Option String) : Bool :=
  match m with
  | some v => ALLOWED_VOICEOVER_MODES.contains v
  | none => false

/-- `validate_opts` (src/app.py lines 145-180): a chain of
`raise HTTPException(status_code=400, detail=...)` checks, then the in-place
transition normalization `opts["transition_type"] = normalize_transition_type(...)`
with silent coercion to `"auto"` when the normalized value is not allowed,
then the voiceover-mode check.  Errors are `(status_code, detail)` pairs; the
returned options carry the mutated transition type. -/
def validate_opts (o : RequestOpts) : Except (ℕ × String) RequestOpts :=
  if o.duration_s < 30 ∨ o.duration_s > 60 then
    .error (400, "Duration must be 30-60 seconds.")
  else if o.platform ∉ ALLOWED_PLATFORMS then .error (400, "Invalid platform.")
  else if o.style ∉ ALLOWED_STYLES then .error (400, "Invalid style.")
  else if o.cut_intensity ∉ ALLOWED_CUTS then .error (400, "Invalid cut intensity.")
  else if o.language ∉ ALLOWED_LANGS then .error (400, "Invalid language.")
  else if o.captions ∉ ALLOWED_CAPTIONS then .error (400, "Invalid captions option.")
  else if o.resolution ∉ ALLOWED_RES then .error (400, "Invalid resolution.")
  else if o.content_preset ∉ ALLOWED_PRESETS then .error (400, "Invalid content preset.")
  else if o.output_resolution ∉ ALLOWED_RES then .error (400, "Invalid output resolution.")
  else if o.reframe_mode ∉ ALLOWED_REFRAME then .error (400, "Invalid reframe mode.")
  else if o.fps ∉ ALLOWED_FPS then .error (400, "Invalid fps.")
  else if o.filter_preset ∉ ALLOWED_FILTERS then .error (400, "Invalid filter preset.")
  else if o.caption_template ∉ ALLOWED_CAPTION_TEMPLATES then
    .error (400, "Invalid caption template.")
  else if o.caption_position ∉ ALLOWED_CAPTION_POSITIONS then
    .error (400, "Invalid caption position.")
  else if o.caption_size ∉ ALLOWED_CAPTION_SIZES then .error (400, "Invalid caption size.")
  else
    let t := normalize_transition_type o.transition_type
    let t2 := if t ∈ ALLOWED_TRANSITIONS then t else "auto"
    if voiceover_mode_ok o.voiceover_mode then
      .ok { o with transition_type := some t2 }
    else
      .error (400, "Invalid voiceover mode.")

/-- A fully valid request (with an alias-cased transition hint), used as the C10
witness input. -/
def valid_request : RequestOpts :=
  { duration_s := 45, platform := "Shorts", style := "Pro", cut_intensity := "Medium",
    language := "FR", captions := "ON", resolution := "1080x1920",
    content_preset := "auto", output_resolution := "1080x1920",
    reframe_mode := "center", fps := 30, filter_preset := "none",
    caption_template := "minimal", caption_position := "bottom", caption_size := "md",
    transition_type := some "Cross-Fade", voiceover_mode := some "duck" }

theorem norm_loop_chain (min_len : ℚ) : ∀ (l : List Segment) (le : ℚ),
    NormChain min_len le (norm_loop min_len l le) := by
  intro l
  induction l with
  | nil => intro le; simp [norm_loop, NormChain]
  | cons seg rest ih =>
    intro le
    by_cases h1 : seg.«end» ≤ seg.start
    · simpa only [norm_loop, if_pos h1] using ih le
    · by_cases h2 : seg.start < le
      · by_cases h3 : seg.«end» - le < min_len
        · simpa only [norm_loop, if_neg h1, if_pos h2, if_pos h3] using ih le
        · simp only [norm_loop, if_neg h1, if_pos h2, if_neg h3]
          exact ⟨le_refl le, le_of_not_lt h3, ih seg.«end»⟩
      · by_cases h3 : seg.«end» - seg.start < min_len
        · simpa only [norm_loop, if_neg h1, if_neg h2, if_pos h3] using ih le
        · simp only [norm_loop, if_neg h1, if_neg h2, if_neg h3]
          exact ⟨le_of_not_lt h2, le_of_not_lt h3, ih seg.«end»⟩

theorem chain_props (min_len : ℚ) (h0 : 0 ≤ min_len) : ∀ (l : List Segment) (le : ℚ),
    NormChain min_len le l →
      (∀ s ∈ l, le ≤ s.start) ∧
      List.Pairwise (fun a b => a.start ≤ b.start) l ∧
      List.Pairwise (fun a b => a.«end» ≤ b.start) l ∧
      (∀ s ∈ l, min_len ≤ s.«end» - s.start) := by
  intro l
  induction l with
  | nil => intro le _; simp
  | cons s rest ih =>
    intro le h
    obtain ⟨hle, hlen, hrest⟩ := h
    obtain ⟨hlb, hp1, hp2, hlens⟩ := ih s.«end» hrest
    have hse : s.start ≤ s.«end» := by linarith
    refine ⟨?_, ?_, ?_, ?_⟩
    · intro t ht
      rcases List.mem_cons.mp ht with rfl | ht
      · exact hle
      · linarith [hlb t ht]
    · exact List.pairwise_cons.mpr ⟨fun t ht => by linarith [hlb t ht], hp1⟩
    · exact List.pairwise_cons.mpr ⟨fun t ht => hlb t ht, hp2⟩
    · intro t ht
      rcases List.mem_cons.mp ht with rfl | ht
      · exact hlen
      · exact hlens t ht

theorem norm_loop_fixed (min_len : ℚ) (h : 0 < min_len) : ∀ (l : List Segment) (le : ℚ),
    NormChain min_len le l → norm_loop min_len l le = l := by
  intro l
  induction l with
  | nil => intro le _; simp [norm_loop]
  | cons s rest ih =>
    intro le hch
    obtain ⟨hle, hlen, hrest⟩ := hch
    have h1 : ¬ s.«end» ≤ s.start := by linarith
    have h2 : ¬ s.start < le := not_lt.mpr hle
    have h3 : ¬ s.«end» - s.start < min_len := not_lt.mpr hlen
    simp only [norm_loop, if_neg h1, if_neg h2, if_neg h3]
    rw [ih s.«end» hrest]

/-- C2 (amended: `min_len ≥ 0`): for any input segment list and any `min_len ≥ 0`,
the output of `normalize_segments` is sorted ascending by `start`, contains no
overlapping segments (each segment's start is at least every earlier segment's
end), and every output segment has length `end - start ≥ min_len`.  (Degenerate
segments with `end ≤ start` are dropped and overlapping starts are clamped up to
the previous end by the definition of `norm_loop` itself.)  For negative
`min_len` the sortedness clause fails, see
`normalize_segments_unsorted_counterexample`. -/
theorem normalize_segments_sorted_spec (segments : List Segment) (min_len : ℚ) (h : 0 ≤ min_len) :
    List.Pairwise (fun a b => a.start ≤ b.start) (normalize_segments segments min_len) ∧
    List.Pairwise (fun a b => a.«end» ≤ b.start) (normalize_segments segments min_len) ∧
    (∀ s ∈ normalize_segments segments min_len, min_len ≤ s.«end» - s.start) := by
  have hc := chain_props min_len h (normalize_segments segments min_len) 0
    (norm_loop_chain min_len _ 0)
  exact ⟨hc.2.1, hc.2.2.1, hc.2.2.2⟩

/-- C9 (amended: `min_len > 0`): `normalize_segments` is idempotent for every
segment list and every positive `min_len`: re-normalizing an already-normalized
list returns it unchanged.  At `min_len = 0` idempotence fails because a kept
zero-length segment is dropped as degenerate by the second pass, see
`normalize_idempotent_counterexample`. -/
theorem normalize_segments_idempotent (segments : List Segment) (min_len : ℚ) (h : 0 < min_len) :
    normalize_segments (normalize_segments segments min_len) min_len =
      normalize_segments segments min_len := by
  have hch : NormChain min_len 0 (normalize_segments segments min_len) :=
    norm_loop_chain min_len _ 0
  have hsorted : List.Sorted (fun a b => a.start ≤ b.start) (normalize_segments segments min_len) :=
    (chain_props min_len (le_of_lt h) _ 0 hch).2.1
  show norm_loop min_len (List.insertionSort _ _) 0 = _
  rw [hsorted.insertionSort_eq]
  exact norm_loop_fixed min_len h _ 0 hch

theorem normalize_idempotent_counterexample :
    normalize_segments (normalize_segments [⟨0,5,"a"⟩,⟨3,5,"b"⟩] 0) 0 ≠
      normalize_segments [⟨0,5,"a"⟩,⟨3,5,"b"⟩] 0 := by
  norm_num [normalize_segments, norm_loop, List.insertionSort, List.orderedInsert]

theorem clamp_loop_le (target_s min_total : ℚ) : ∀ (l : List Segment) (r0 : ℚ),
    (clamp_loop target_s min_total l r0).2 ≤ max target_s (max min_total r0) := by
  intro l
  induction l with
  | nil =>
    intro r0
    simp only [clamp_loop]
    exact le_trans (le_max_right min_total r0) (le_max_right target_s _)
  | cons seg rest ih =>
    intro r0
    by_cases h1 : r0 + (seg.«end» - seg.start) ≤ target_s
    · simp only [clamp_loop, if_pos h1]
      have h2 := ih (r0 + (seg.«end» - seg.start))
      rcases le_max_iff.mp h2 with h3 | h3
      · exact le_max_of_le_left h3
      · rcases le_max_iff.mp h3 with h4 | h4
        · exact le_max_of_le_right (le_max_of_le_left h4)
        · exact le_max_of_le_left (le_trans h4 h1)
    · by_cases h2 : (0.4 : ℚ) ≤ max (target_s - r0) (min_total - r0)
      · simp only [clamp_loop, if_neg h1, if_pos h2]
        have h3 : r0 + max (target_s - r0) (min_total - r0) = max target_s min_total := by
          rw [← max_add_add_left]
          ring_nf
        rcases le_max_iff.mp (le_of_eq h3) with h4 | h4
        · exact le_max_of_le_left h4
        · exact le_max_of_le_right (le_max_of_le_left h4)
      · simp only [clamp_loop, if_neg h1, if_neg h2]
        exact le_max_of_le_right (le_max_right min_total r0)

theorem clamp_loop_total (target_s min_total : ℚ) : ∀ (l : List Segment) (r0 : ℚ),
    (clamp_loop target_s min_total l r0).2 =
      r0 + total_duration (clamp_loop target_s min_total l r0).1 := by
  intro l
  induction l with
  | nil => intro r0; simp [clamp_loop, total_duration]
  | cons seg rest ih =>
    intro r0
    by_cases h1 : r0 + (seg.«end» - seg.start) ≤ target_s
    · simp only [clamp_loop, if_pos h1, total_duration, List.map_cons, List.sum_cons]
      have h2 := ih (r0 + (seg.«end» - seg.start))
      simp only [total_duration] at h2
      rw [h2]; ring
    · by_cases h2 : (0.4 : ℚ) ≤ max (target_s - r0) (min_total - r0)
      · simp only [clamp_loop, if_neg h1, if_pos h2, total_duration, List.map_cons,
          List.map_nil, List.sum_cons, List.sum_nil]
        ring
      · simp only [clamp_loop, if_neg h1, if_neg h2, total_duration, List.map_nil,
          List.sum_nil]
        ring

/-- C1 (amended: restricted to `target_s ≤ max_total`): with the default bounds
`min_total = 30`, `max_total = 60` and any `target_s ≤ 60`,
`clamp_duration_to_range` either returns the original unclamped input list
unchanged (with its own total) — which happens exactly when the input total is
already `≤ max_total` or when the greedily trimmed total would still fall below
`min_total` — or returns a trimmed list whose total lies in
`[min_total, max_total]`.  For `target_s > max_total` the returned total can
exceed `max_total` on a trimmed (non-original) list, see
`clamp_duration_exceeds_max_counterexample`. -/
theorem clamp_duration_to_range_bounds (segments : List Segment) (target_s : ℚ)
    (h : target_s ≤ 60) :
    ((clamp_duration_to_range segments target_s 30 60).1 = segments ↔
      (total_duration segments ≤ 60 ∨ (clamp_loop target_s 30 segments 0).2 < 30)) ∧
    ((clamp_duration_to_range segments target_s 30 60).1 = segments →
      (clamp_duration_to_range segments target_s 30 60).2 = total_duration segments) ∧
    ((clamp_duration_to_range segments target_s 30 60).1 ≠ segments →
      30 ≤ (clamp_duration_to_range segments target_s 30 60).2 ∧
        (clamp_duration_to_range segments target_s 30 60).2 ≤ 60) := by
  by_cases h1 : total_duration segments ≤ 60
  · have hp : clamp_duration_to_range segments target_s 30 60 =
        (segments, total_duration segments) := by
      simp only [clamp_duration_to_range, if_pos h1]
    rw [hp]
    exact ⟨⟨fun _ => Or.inl h1, fun _ => rfl⟩, fun _ => rfl, fun hne => absurd rfl hne⟩
  · by_cases h2 : (clamp_loop target_s 30 segments 0).2 < 30
    · have hp : clamp_duration_to_range segments target_s 30 60 =
          (segments, total_duration segments) := by
        simp only [clamp_duration_to_range, if_neg h1, if_pos h2]
      rw [hp]
      exact ⟨⟨fun _ => Or.inr h2, fun _ => rfl⟩, fun _ => rfl, fun hne => absurd rfl hne⟩
    · have hle : (clamp_loop target_s 30 segments 0).2 ≤ 60 := by
        have := clamp_loop_le target_s 30 segments 0
        rcases le_max_iff.mp this with h3 | h3
        · linarith
        · rcases le_max_iff.mp h3 with h4 | h4 <;> linarith
      have hne : (clamp_loop target_s 30 segments 0).1 ≠ segments := by
        intro he
        have h3 := clamp_loop_total target_s 30 segments 0
        rw [he, zero_add] at h3
        linarith [not_le.mp h1]
      have hp : clamp_duration_to_range segments target_s 30 60 =
          clamp_loop target_s 30 segments 0 := by
        simp only [clamp_duration_to_range, if_neg h1, if_neg h2]
      rw [hp]
      exact ⟨⟨fun he => absurd he hne, fun hor => by
          rcases hor with h3 | h3
          · exact absurd h3 h1
          · exact absurd h3 h2⟩,
        fun he => absurd he hne,
        fun _ => ⟨not_lt.mp h2, hle⟩⟩

theorem clamp_duration_exceeds_max_counterexample :
    (clamp_duration_to_range [⟨0,70,"keep"⟩, ⟨70,200,"keep"⟩] 100 30 60).1 ≠
      [⟨0,70,"keep"⟩, ⟨70,200,"keep"⟩] ∧
    (clamp_duration_to_range [⟨0,70,"keep"⟩, ⟨70,200,"keep"⟩] 100 30 60).2 > 60 ∧
    total_duration (clamp_duration_to_range [⟨0,70,"keep"⟩, ⟨70,200,"keep"⟩] 100 30 60).1 > 60 := by
  norm_num [clamp_duration_to_range, clamp_loop, total_duration]

theorem clamp_duration_to_range_bounds_witness :
    (45 : ℚ) ≤ 60 ∧
    (((clamp_duration_to_range [⟨0,40,"keep"⟩, ⟨40,80,"keep"⟩] 45 30 60).1 =
        [⟨0,40,"keep"⟩, ⟨40,80,"keep"⟩] ↔
      (total_duration [⟨0,40,"keep"⟩, ⟨40,80,"keep"⟩] ≤ 60 ∨
        (clamp_loop 45 30 [⟨0,40,"keep"⟩, ⟨40,80,"keep"⟩] 0).2 < 30)) ∧
    ((clamp_duration_to_range [⟨0,40,"keep"⟩, ⟨40,80,"keep"⟩] 45 30 60).1 =
        [⟨0,40,"keep"⟩, ⟨40,80,"keep"⟩] →
      (clamp_duration_to_range [⟨0,40,"keep"⟩, ⟨40,80,"keep"⟩] 45 30 60).2 =
        total_duration [⟨0,40,"keep"⟩, ⟨40,80,"keep"⟩]) ∧
    ((clamp_duration_to_range [⟨0,40,"keep"⟩, ⟨40,80,"keep"⟩] 45 30 60).1 ≠
        [⟨0,40,"keep"⟩, ⟨40,80,"keep"⟩] →
      30 ≤ (clamp_duration_to_range [⟨0,40,"keep"⟩, ⟨40,80,"keep"⟩] 45 30 60).2 ∧
        (clamp_duration_to_range [⟨0,40,"keep"⟩, ⟨40,80,"keep"⟩] 45 30 60).2 ≤ 60)) :=
  ⟨by norm_num, clamp_duration_to_range_bounds _ _ (by norm_num)⟩

theorem normalize_segments_sorted_spec_witness :
    (0 : ℚ) ≤ 0.4 ∧
    (List.Pairwise (fun a b => a.start ≤ b.start)
        (normalize_segments [⟨0,5,"hook"⟩,⟨5,20,"keep"⟩,⟨18,30,"keep"⟩] 0.4) ∧
      List.Pairwise (fun a b => a.«end» ≤ b.start)
        (normalize_segments [⟨0,5,"hook"⟩,⟨5,20,"keep"⟩,⟨18,30,"keep"⟩] 0.4) ∧
      (∀ s ∈ normalize_segments [⟨0,5,"hook"⟩,⟨5,20,"keep"⟩,⟨18,30,"keep"⟩] 0.4,
        (0.4 : ℚ) ≤ s.«end» - s.start)) :=
  ⟨by norm_num, normalize_segments_sorted_spec _ _ (by norm_num)⟩

theorem normalize_segments_idempotent_witness :
    (0 : ℚ) < 0.4 ∧
    normalize_segments (normalize_segments [⟨0,5,"hook"⟩,⟨5,20,"keep"⟩,⟨18,30,"keep"⟩] 0.4) 0.4 =
      normalize_segments [⟨0,5,"hook"⟩,⟨5,20,"keep"⟩,⟨18,30,"keep"⟩] 0.4 :=
  ⟨by norm_num, normalize_segments_idempotent _ _ (by norm_num)⟩

theorem xfade_loop_length (transition : String) (duration : ℚ) :
    ∀ (l : List ℚ) (idx : ℕ) (last : String) (offset : ℚ),
      (xfade_loop transition duration l idx last offset).length = l.length := by
  intro l
  induction l with
  | nil => intro idx last offset; simp [xfade_loop]
  | cons dur rest ih => intro idx last offset; simp [xfade_loop, ih]

theorem xfade_loop_offset (transition : String) (duration : ℚ) :
    ∀ (l : List ℚ) (idx : ℕ) (last : String) (offset : ℚ) (i : ℕ)
      (hi : i < (xfade_loop transition duration l idx last offset).length),
      ((xfade_loop transition duration l idx last offset).get ⟨i, hi⟩).offset =
        offset + (l.take i).sum - i * duration := by
  intro l
  induction l with
  | nil => intro idx last offset i hi; simp [xfade_loop] at hi
  | cons dur rest ih =>
    intro idx last offset i hi
    match i with
    | 0 => simp [xfade_loop]
    | j + 1 =>
      have hj : j < (xfade_loop transition duration rest (idx + 1)
          (s!"[v{idx}]") (offset + (dur - duration))).length := by
        simpa [xfade_loop] using hi
      have := ih (idx + 1) (s!"[v{idx}]") (offset + (dur - duration)) j hj
      simp only [xfade_loop, List.get_cons_succ, List.take_succ_cons, List.sum_cons]
      rw [this]
      push_cast
      ring

/-- C5: when `apply_transitions` builds a cross-fade graph (transition type not
`"none"` and at least two clips), the offset of the `i`-th `xfade` merge (0-based
over the generated entries, merging clip `i+1`) equals the sum of the probed
durations of clips `0..i` minus `(i+1) * transition_duration`; equivalently the
first offset is `duration(clip0) - transition_duration` and each merge advances
the running offset by `duration(clip_i) - transition_duration`. -/
theorem apply_transitions_offset_formula (probe : String → ℚ) (clip_paths : List String)
    (transition_type : String) (duration : ℚ) (output_path : String)
    (hty : transition_type ≠ "none") (hlen : 2 ≤ clip_paths.length) :
    ∃ entries, apply_transitions probe clip_paths transition_type duration output_path =
        TransitionPlan.xfade entries output_path ∧
      entries.length = clip_paths.length - 1 ∧
      ∀ i (hi : i < entries.length),
        (entries.get ⟨i, hi⟩).offset =
          ((clip_paths.map probe).take (i + 1)).sum - (i + 1 : ℚ) * duration := by
  have hcond : ¬ (transition_type = "none" ∨ clip_paths.length < 2) := by
    rintro (h | h)
    · exact hty h
    · omega
  match clip_paths, hlen with
  | c0 :: cl, _ =>
    have happ : apply_transitions probe (c0 :: cl) transition_type duration output_path =
        TransitionPlan.xfade (xfade_loop ((transitions_map.lookup transition_type).getD "fade")
          duration (cl.map probe) 1 "[0:v]" (probe c0 - duration)) output_path := by
      simp only [apply_transitions, if_neg hcond, List.map_cons, List.tail_cons,
        List.headD_cons]
    refine ⟨_, happ, ?_, ?_⟩
    · simp [xfade_loop_length]
    · intro i hi
      rw [xfade_loop_offset]
      simp only [List.map_cons, List.take_succ_cons, List.sum_cons]
      ring

/-- C8: if the cross-fade transition command raises (modelled by the `raises`
oracle on the generated plan), the orchestrator falls back to plain stream-copy
concatenation of the same clips into the same output path
(`render_video_pipeline`, src/app.py lines 433-443); and with transition type
`"none"` or fewer than 2 clips, `apply_transitions` itself performs plain
concatenation with no cross-fade filter stages. -/
theorem transition_fallback_concat (probe : String → ℚ) (raises : TransitionPlan → Bool)
    (clip_paths : List String) (transition_type : String) (duration : ℚ)
    (output_path : String) :
    (raises (apply_transitions probe clip_paths transition_type duration output_path) = true →
      transition_step probe raises clip_paths transition_type duration output_path =
        TransitionPlan.concat clip_paths output_path) ∧
    (raises (apply_transitions probe clip_paths transition_type duration output_path) = false →
      transition_step probe raises clip_paths transition_type duration output_path =
        apply_transitions probe clip_paths transition_type duration output_path) ∧
    (transition_type = "none" ∨ clip_paths.length < 2 →
      apply_transitions probe clip_paths transition_type duration output_path =
        TransitionPlan.concat clip_paths output_path) := by
  refine ⟨fun h => ?_, fun h => ?_, fun h => ?_⟩
  · simp [transition_step, h]
  · simp [transition_step, h]
  · simp [apply_transitions, if_pos h]

theorem apply_transitions_offset_formula_witness :
    ∃ entries, apply_transitions (fun _ => (5 : ℚ)) ["a.mp4", "b.mp4", "c.mp4"] "fade"
        0.3 "concat.mp4" = TransitionPlan.xfade entries "concat.mp4" ∧
      entries.length = (["a.mp4", "b.mp4", "c.mp4"] : List String).length - 1 ∧
      ∀ i (hi : i < entries.length),
        (entries.get ⟨i, hi⟩).offset =
          (((["a.mp4", "b.mp4", "c.mp4"] : List String).map (fun _ => (5 : ℚ))).take
            (i + 1)).sum - (i + 1 : ℚ) * 0.3 :=
  apply_transitions_offset_formula _ _ _ _ _ (by decide) (by norm_num)

theorem transition_fallback_concat_witness :
    transition_step (fun _ => (5 : ℚ)) (fun _ => true) ["a.mp4", "b.mp4"] "fade" 0.3 "o.mp4" =
      TransitionPlan.concat ["a.mp4", "b.mp4"] "o.mp4" :=
  (transition_fallback_concat (fun _ => (5 : ℚ)) (fun _ => true) ["a.mp4", "b.mp4"]
    "fade" 0.3 "o.mp4").1 rfl

/-- C3: the render fallback cascade of `process_job` (src/app.py lines 594-608):
if the first attempt raises, exactly one retry runs with `ai_visuals_enabled`
forced to `false` and `transition_type` forced to `"none"` (all other options,
including `captions_enabled` and the `rest` payload, unchanged); if that raises,
exactly one further retry additionally forces `captions_enabled` to `false`;
the cascade fails only if all three attempts raise; every attempt receives the
same normalized segment list. -/
theorem process_job_fallback_cascade {α β : Type}
    (attempt : RenderOpts α → List Segment → Except String β)
    (opts : RenderOpts α) (segments : List Segment) :
    (∀ o, attempt opts segments = .ok o →
      attempt_chain attempt opts segments = .ok o) ∧
    (∀ e o, attempt opts segments = .error e →
      attempt (fallback_opts1 opts) segments = .ok o →
      attempt_chain attempt opts segments = .ok o) ∧
    (∀ e1 e2, attempt opts segments = .error e1 →
      attempt (fallback_opts1 opts) segments = .error e2 →
      attempt_chain attempt opts segments = attempt (fallback_opts2 opts) segments) ∧
    (∀ e, attempt_chain attempt opts segments = .error e →
      ∃ e1 e2, attempt opts segments = .error e1 ∧
        attempt (fallback_opts1 opts) segments = .error e2 ∧
        attempt (fallback_opts2 opts) segments = .error e) ∧
    (fallback_opts1 opts).ai_visuals_enabled = false ∧
    (fallback_opts1 opts).transition_type = "none" ∧
    (fallback_opts1 opts).captions_enabled = opts.captions_enabled ∧
    (fallback_opts1 opts).rest = opts.rest ∧
    (fallback_opts2 opts).ai_visuals_enabled = false ∧
    (fallback_opts2 opts).transition_type = "none" ∧
    (fallback_opts2 opts).captions_enabled = false ∧
    (fallback_opts2 opts).rest = opts.rest := by
  refine ⟨?_, ?_, ?_, ?_, rfl, rfl, rfl, rfl, rfl, rfl, rfl, rfl⟩
  · intro o h; simp [attempt_chain, h]
  · intro e o h1 h2; simp [attempt_chain, h1, h2]
  · intro e1 e2 h1 h2; simp [attempt_chain, h1, h2]
  · intro e h
    unfold attempt_chain at h
    match h1 : attempt opts segments with
    | .ok o => rw [h1] at h; exact absurd h (by simp)
    | .error e1 =>
      rw [h1] at h
      match h2 : attempt (fallback_opts1 opts) segments with
      | .ok o => rw [h2] at h; exact absurd h (by simp)
      | .error e2 =>
        rw [h2] at h
        exact ⟨e1, e2, rfl, rfl, h⟩

/-- C4: after the attempt cascade succeeds, if the output's width is smaller than
the source's width or its height is smaller than the source's height, the whole
job fails with the integrity error (and this failure is not retried: the
statement holds for every attempt oracle, including ones whose fallback attempts
would succeed); otherwise the job completes with that output. -/
theorem output_integrity_check {α β : Type}
    (attempt : RenderOpts α → List Segment → Except String β)
    (inspect : β → Dim) (srcDim : Dim) (opts : RenderOpts α) (segments : List Segment)
    (out : β) (hok : attempt_chain attempt opts segments = .ok out) :
    (((inspect out).width < srcDim.width ∨ (inspect out).height < srcDim.height) →
      process_render attempt inspect srcDim opts segments =
        .failed "Output resolution lower than source.") ∧
    (¬ ((inspect out).width < srcDim.width ∨ (inspect out).height < srcDim.height) →
      process_render attempt inspect srcDim opts segments = .done out) := by
  refine ⟨fun hbad => ?_, fun hgood => ?_⟩
  · simp [process_render, hok, if_pos hbad]
  · simp [process_render, hok, if_neg hgood]

theorem process_job_fallback_cascade_witness :
    attempt_chain (fun (o : RenderOpts Unit) (_ : List Segment) =>
        if o.ai_visuals_enabled then Except.error "stage failed" else Except.ok "out.mp4")
      ⟨true, "fade", true, ()⟩ [] = Except.ok "out.mp4" :=
  (process_job_fallback_cascade (fun o _ =>
      if o.ai_visuals_enabled then Except.error "stage failed" else Except.ok "out.mp4")
    ⟨true, "fade", true, ()⟩ []).2.1 "stage failed" "out.mp4" rfl rfl

theorem output_integrity_check_witness :
    process_render (fun (_ : RenderOpts Unit) (_ : List Segment) => Except.ok "out.mp4")
      (fun _ => ⟨480, 854⟩) ⟨1080, 1920⟩ ⟨true, "fade", true, ()⟩ [] =
      JobOutcome.failed "Output resolution lower than source." :=
  (output_integrity_check (fun _ _ => Except.ok "out.mp4") (fun _ => ⟨480, 854⟩)
    ⟨1080, 1920⟩ ⟨true, "fade", true, ()⟩ [] "out.mp4" rfl).1 (by norm_num)

/-- C6: when a voiceover input is present and `voiceover_mode = "duck"`, the
generated audio filter graph contains a `sidechaincompress` stage whose main
(compressed) input is the base audio track `[0:a]` and whose sidechain (control)
input is the voiceover stream (either the tempo-adjusted `[vo]` or the raw
`[1:a]`), immediately followed by a mix of the ducked base with the same
voiceover stream. -/
theorem duck_mode_sidechain (opts : RenderFinalOpts)
    (hvo : (active_voiceover opts).isSome = true)
    (hmode : opts.voiceover_mode = "duck") :
    ∃ post, (build_audio_graph opts).1 =
        (voice_input_stages opts).1 ++
          (AStage.sidechain "[0:a]" (voice_input_stages opts).2 "[ducked]" ::
            AStage.amix2 "[ducked]" (voice_input_stages opts).2 "[voice]" :: post) ∧
      ((voice_input_stages opts).2 = "[vo]" ∨ (voice_input_stages opts).2 = "[1:a]") := by
  obtain ⟨p, hp⟩ := Option.isSome_iff_exists.mp hvo
  have hv : voice_section opts =
      ((voice_input_stages opts).1 ++
        [AStage.sidechain "[0:a]" (voice_input_stages opts).2 "[ducked]",
          AStage.amix2 "[ducked]" (voice_input_stages opts).2 "[voice]"], "[voice]") := by
    rw [voice_section, hp, hmode]
    simp
  refine ⟨(sfx_section opts "[voice]").1 ++
      (music_section opts (sfx_section opts "[voice]").2).1 ++
      (enh_section opts (music_section opts (sfx_section opts "[voice]").2).2).1, ?_, ?_⟩
  · simp [build_audio_graph, hv]
  · rw [voice_input_stages]
    split
    · exact Or.inl rfl
    · exact Or.inr rfl

theorem sfx_section_no_atempo (opts : RenderFinalOpts) (vl : String) :
    ∀ st ∈ (sfx_section opts vl).1, st.is_atempo = false := by
  intro st hst
  rw [sfx_section] at hst
  split at hst
  · simp at hst
  · simp only [List.mem_append, List.mem_map, List.mem_singleton] at hst
    rcases hst with ⟨q, _, rfl⟩ | rfl
    · rfl
    · rfl

theorem music_section_no_atempo (opts : RenderFinalOpts) (vl : String) :
    ∀ st ∈ (music_section opts vl).1, st.is_atempo = false := by
  intro st hst
  rw [music_section] at hst
  split at hst
  · simp at hst
  · split at hst <;> (simp at hst; rcases hst with rfl | rfl | rfl <;> rfl)

theorem enh_section_no_atempo (opts : RenderFinalOpts) (am : String) :
    ∀ st ∈ (enh_section opts am).1, st.is_atempo = false := by
  intro st hst
  rw [enh_section] at hst
  split at hst
  · simp at hst
  · simp at hst; subst hst; rfl

/-- C7 (amended: "differs from 1.0" must read "differs from 1.0 by more than
0.01"): when a voiceover is present, not pre-adjusted, and
`|voiceover_speed - 1| > 0.01`, the audio graph starts with an `atempo` stage on
the voiceover whose speed is clamped into `[0.5, 2.0]` (and equals the requested
speed whenever that is already in range), and this stage precedes all mode
combination stages; when the voiceover is pre-adjusted or its speed is within
0.01 of 1.0 (in particular when it equals 1.0),
no tempo stage appears anywhere in the graph.  A speed within the 0.01 tolerance
(e.g. 1.005) differs from 1.0 yet produces no tempo stage, see
`voiceover_atempo_tolerance_counterexample`. -/
theorem voiceover_atempo_clamped (opts : RenderFinalOpts)
    (hvo : (active_voiceover opts).isSome = true) :
    ((opts.voiceover_pre_sped = false ∧ (1/100 : ℚ) < |opts.voiceover_speed - 1|) →
      ∃ s, (build_audio_graph opts).1.head? = some (AStage.atempo "[1:a]" s "[vo]") ∧
        (1/2 : ℚ) ≤ s ∧ s ≤ 2 ∧
        ((1/2 : ℚ) ≤ opts.voiceover_speed → opts.voiceover_speed ≤ 2 →
          s = opts.voiceover_speed)) ∧
    ((opts.voiceover_pre_sped = true ∨ |opts.voiceover_speed - 1| ≤ (1/100 : ℚ)) →
      ∀ st ∈ (build_audio_graph opts).1, st.is_atempo = false) := by
  obtain ⟨p, hp⟩ := Option.isSome_iff_exists.mp hvo
  constructor
  · intro hcond
    have hvi : voice_input_stages opts =
        ([AStage.atempo "[1:a]" (max (1/2) (min 2 opts.voiceover_speed)) "[vo]"], "[vo]") := by
      rw [voice_input_stages, if_pos hcond]
    have hv : ∃ vrest, (voice_section opts).1 =
        AStage.atempo "[1:a]" (max (1/2) (min 2 opts.voiceover_speed)) "[vo]" :: vrest := by
      rw [voice_section, hp]
      by_cases hm1 : opts.voiceover_mode = "replace"
      · exact ⟨[], by simp only [if_pos hm1, hvi]⟩
      · by_cases hm2 : opts.voiceover_mode = "mix"
        · exact ⟨[AStage.amix2 "[0:a]" "[vo]" "[voice]"],
            by simp only [if_neg hm1, if_pos hm2, hvi]; rfl⟩
        · exact ⟨[AStage.sidechain "[0:a]" "[vo]" "[ducked]",
              AStage.amix2 "[ducked]" "[vo]" "[voice]"],
            by simp only [if_neg hm1, if_neg hm2, hvi]; rfl⟩
    obtain ⟨vrest, hvr⟩ := hv
    refine ⟨max (1/2) (min 2 opts.voiceover_speed), ?_, le_max_left _ _, ?_, ?_⟩
    · simp only [build_audio_graph]
      rw [hvr]
      rfl
    · exact max_le (by norm_num) (min_le_left _ _)
    · intro hlo hhi
      rw [min_eq_right hhi, max_eq_right hlo]
  · intro hcond st hst
    have hvi : voice_input_stages opts = ([], "[1:a]") := by
      rw [voice_input_stages, if_neg]
      rcases hcond with h | h
      · simp [h]
      · exact fun hc => absurd hc.2 (not_lt.mpr h)
    have hv1 : ∀ t ∈ (voice_section opts).1, t.is_atempo = false := by
      intro t ht
      rw [voice_section, hp] at ht
      by_cases hm1 : opts.voiceover_mode = "replace"
      · rw [if_pos hm1, hvi] at ht; simp at ht
      · rw [if_neg hm1] at ht
        by_cases hm2 : opts.voiceover_mode = "mix"
        · rw [if_pos hm2, hvi] at ht
          simp at ht; subst ht; rfl
        · rw [if_neg hm2, hvi] at ht
          simp at ht
          rcases ht with rfl | rfl <;> rfl
    rw [build_audio_graph] at hst
    simp only [List.mem_append] at hst
    rcases hst with ((h | h) | h) | h
    · exact hv1 st h
    · exact sfx_section_no_atempo opts _ st h
    · exact music_section_no_atempo opts _ st h
    · exact enh_section_no_atempo opts _ st h

theorem voiceover_atempo_tolerance_counterexample :
    (active_voiceover atempo_cex_opts).isSome = true ∧
    atempo_cex_opts.voiceover_pre_sped = false ∧
    atempo_cex_opts.voiceover_speed ≠ 1 ∧
    (build_audio_graph atempo_cex_opts).1 = [] := by
  refine ⟨by decide, rfl, by norm_num [atempo_cex_opts], ?_⟩
  have hvi : voice_input_stages atempo_cex_opts = ([], "[1:a]") := by
    rw [voice_input_stages, if_neg]
    intro h
    have h2 := h.2
    rw [show |atempo_cex_opts.voiceover_speed - 1| = (0.005 : ℚ) by
      norm_num [atempo_cex_opts, abs_of_pos]] at h2
    norm_num at h2
  simp only [atempo_cex_opts] at hvi
  simp [build_audio_graph, voice_section, active_voiceover, atempo_cex_opts,
    truthy_path, hvi, sfx_section, music_section, music_idx, active_music,
    enh_section, audio_filter_list]

theorem duck_mode_sidechain_witness :
    ∃ post, (build_audio_graph duck_witness_opts).1 =
        (voice_input_stages duck_witness_opts).1 ++
          (AStage.sidechain "[0:a]" (voice_input_stages duck_witness_opts).2 "[ducked]" ::
            AStage.amix2 "[ducked]" (voice_input_stages duck_witness_opts).2 "[voice]" ::
              post) ∧
      ((voice_input_stages duck_witness_opts).2 = "[vo]" ∨
        (voice_input_stages duck_witness_opts).2 = "[1:a]") :=
  duck_mode_sidechain duck_witness_opts (by decide) rfl

theorem voiceover_atempo_clamped_witness :
    ∃ s, (build_audio_graph atempo_witness_opts).1.head? =
        some (AStage.atempo "[1:a]" s "[vo]") ∧
      (1/2 : ℚ) ≤ s ∧ s ≤ 2 ∧
      ((1/2 : ℚ) ≤ atempo_witness_opts.voiceover_speed →
        atempo_witness_opts.voiceover_speed ≤ 2 → s = atempo_witness_opts.voiceover_speed) :=
  (voiceover_atempo_clamped atempo_witness_opts (by decide)).1
    ⟨rfl, by rw [lt_abs]; norm_num [atempo_witness_opts]⟩

/-- C10: `validate_opts` succeeds exactly when every enumerated field (duration,
platform, style, cut intensity, language, captions, resolution, content preset,
output resolution, reframe mode, fps, filter preset, caption template/position/
size, voiceover mode) is valid — the transition type does not appear among these
conditions; every rejection is an HTTP 400 error; and on success the transition
type has been normalized and silently coerced into the allowed set (an
unrecognized value becomes `"auto"` rather than being rejected). -/
theorem validate_opts_spec (o : RequestOpts) :
    ((∃ o2, validate_opts o = .ok o2) ↔
      (30 ≤ o.duration_s ∧ o.duration_s ≤ 60 ∧ o.platform ∈ ALLOWED_PLATFORMS ∧
        o.style ∈ ALLOWED_STYLES ∧ o.cut_intensity ∈ ALLOWED_CUTS ∧
        o.language ∈ ALLOWED_LANGS ∧ o.captions ∈ ALLOWED_CAPTIONS ∧
        o.resolution ∈ ALLOWED_RES ∧ o.content_preset ∈ ALLOWED_PRESETS ∧
        o.output_resolution ∈ ALLOWED_RES ∧ o.reframe_mode ∈ ALLOWED_REFRAME ∧
        o.fps ∈ ALLOWED_FPS ∧ o.filter_preset ∈ ALLOWED_FILTERS ∧
        o.caption_template ∈ ALLOWED_CAPTION_TEMPLATES ∧
        o.caption_position ∈ ALLOWED_CAPTION_POSITIONS ∧
        o.caption_size ∈ ALLOWED_CAPTION_SIZES ∧
        voiceover_mode_ok o.voiceover_mode = true)) ∧
    (∀ e, validate_opts o = .error e → e.1 = 400) ∧
    (∀ o2, validate_opts o = .ok o2 →
      o2 = { o with transition_type := some (
          if normalize_transition_type o.transition_type ∈ ALLOWED_TRANSITIONS then
            normalize_transition_type o.transition_type
          else "auto") } ∧
      (if normalize_transition_type o.transition_type ∈ ALLOWED_TRANSITIONS then
          normalize_transition_type o.transition_type
        else "auto") ∈ ALLOWED_TRANSITIONS) := by
  by_cases h1 : o.duration_s < 30 ∨ o.duration_s > 60
  case pos =>
    have he : validate_opts o = .error (400, "Duration must be 30-60 seconds.") := by
      simp only [validate_opts, if_pos h1]
    rw [he]
    refine ⟨⟨fun hex => ?_, fun hr => ?_⟩, fun e he2 => ?_, fun o2 ho => ?_⟩
    · obtain ⟨o2, ho⟩ := hex; exact Except.noConfusion ho
    · exfalso; rcases h1 with h | h <;> linarith [hr.1, hr.2.1]
    · injection he2 with hh; subst hh; rfl
    · exact Except.noConfusion ho
  by_cases h2 : o.platform ∉ ALLOWED_PLATFORMS
  case pos =>
    have he : validate_opts o = .error (400, "Invalid platform.") := by
      simp only [validate_opts, if_neg h1, if_pos h2]
    rw [he]
    refine ⟨⟨fun hex => ?_, fun hr => absurd (by tauto) h2⟩, fun e he2 => ?_,
      fun o2 ho => ?_⟩
    · obtain ⟨o2, ho⟩ := hex; exact Except.noConfusion ho
    · injection he2 with hh; subst hh; rfl
    · exact Except.noConfusion ho
  by_cases h3 : o.style ∉ ALLOWED_STYLES
  case pos =>
    have he : validate_opts o = .error (400, "Invalid style.") := by
      simp only [validate_opts, if_neg h1, if_neg h2, if_pos h3]
    rw [he]
    refine ⟨⟨fun hex => ?_, fun hr => absurd (by tauto) h3⟩, fun e he2 => ?_,
      fun o2 ho => ?_⟩
    · obtain ⟨o2, ho⟩ := hex; exact Except.noConfusion ho
    · injection he2 with hh; subst hh; rfl
    · exact Except.noConfusion ho
  by_cases h4 : o.cut_intensity ∉ ALLOWED_CUTS
  case pos =>
    have he : validate_opts o = .error (400, "Invalid cut intensity.") := by
      simp only [validate_opts, if_neg h1, if_neg h2, if_neg h3, if_pos h4]
    rw [he]
    refine ⟨⟨fun hex => ?_, fun hr => absurd (by tauto) h4⟩, fun e he2 => ?_,
      fun o2 ho => ?_⟩
    · obtain ⟨o2, ho⟩ := hex; exact Except.noConfusion ho
    · injection he2 with hh; subst hh; rfl
    · exact Except.noConfusion ho
  by_cases h5 : o.language ∉ ALLOWED_LANGS
  case pos =>
    have he : validate_opts o = .error (400, "Invalid language.") := by
      simp only [validate_opts, if_neg h1, if_neg h2, if_neg h3, if_neg h4, if_pos h5]
    rw [he]
    refine ⟨⟨fun hex => ?_, fun hr => absurd (by tauto) h5⟩, fun e he2 => ?_,
      fun o2 ho => ?_⟩
    · obtain ⟨o2, ho⟩ := hex; exact Except.noConfusion ho
    · injection he2 with hh; subst hh; rfl
    · exact Except.noConfusion ho
  by_cases h6 : o.captions ∉ ALLOWED_CAPTIONS
  case pos =>
    have he : validate_opts o = .error (400, "Invalid captions option.") := by
      simp only [validate_opts, if_neg h1, if_neg h2, if_neg h3, if_neg h4, if_neg h5,
        if_pos h6]
    rw [he]
    refine ⟨⟨fun hex => ?_, fun hr => absurd (by tauto) h6⟩, fun e he2 => ?_,
      fun o2 ho => ?_⟩
    · obtain ⟨o2, ho⟩ := hex; exact Except.noConfusion ho
    · injection he2 with hh; subst hh; rfl
    · exact Except.noConfusion ho
  by_cases h7 : o.resolution ∉ ALLOWED_RES
  case pos =>
    have he : validate_opts o = .error (400, "Invalid resolution.") := by
      simp only [validate_opts, if_neg h1, if_neg h2, if_neg h3, if_neg h4, if_neg h5,
        if_neg h6, if_pos h7]
    rw [he]
    refine ⟨⟨fun hex => ?_, fun hr => absurd (by tauto) h7⟩, fun e he2 => ?_,
      fun o2 ho => ?_⟩
    · obtain ⟨o2, ho⟩ := hex; exact Except.noConfusion ho
    · injection he2 with hh; subst hh; rfl
    · exact Except.noConfusion ho
  by_cases h8 : o.content_preset ∉ ALLOWED_PRESETS
  case pos =>
    have he : validate_opts o = .error (400, "Invalid content preset.") := by
      simp only [validate_opts, if_neg h1, if_neg h2, if_neg h3, if_neg h4, if_neg h5,
        if_neg h6, if_neg h7, if_pos h8]
    rw [he]
    refine ⟨⟨fun hex => ?_, fun hr => absurd (by tauto) h8⟩, fun e he2 => ?_,
      fun o2 ho => ?_⟩
    · obtain ⟨o2, ho⟩ := hex; exact Except.noConfusion ho
    · injection he2 with hh; subst hh; rfl
    · exact Except.noConfusion ho
  by_cases h9 : o.output_resolution ∉ ALLOWED_RES
  case pos =>
    have he : validate_opts o = .error (400, "Invalid output resolution.") := by
      simp only [validate_opts, if_neg h1, if_neg h2, if_neg h3, if_neg h4, if_neg h5,
        if_neg h6, if_neg h7, if_neg h8, if_pos h9]
    rw [he]
    refine ⟨⟨fun hex => ?_, fun hr => absurd (by tauto) h9⟩, fun e he2 => ?_,
      fun o2 ho => ?_⟩
    · obtain ⟨o2, ho⟩ := hex; exact Except.noConfusion ho
    · injection he2 with hh; subst hh; rfl
    · exact Except.noConfusion ho
  by_cases h10 : o.reframe_mode ∉ ALLOWED_REFRAME
  case pos =>
    have he : validate_opts o = .error (400, "Invalid reframe mode.") := by
      simp only [validate_opts, if_neg h1, if_neg h2, if_neg h3, if_neg h4, if_neg h5,
        if_neg h6, if_neg h7, if_neg h8, if_neg h9, if_pos h10]
    rw [he]
    refine ⟨⟨fun hex => ?_, fun hr => absurd (by tauto) h10⟩, fun e he2 => ?_,
      fun o2 ho => ?_⟩
    · obtain ⟨o2, ho⟩ := hex; exact Except.noConfusion ho
    · injection he2 with hh; subst hh; rfl
    · exact Except.noConfusion ho
  by_cases h11 : o.fps ∉ ALLOWED_FPS
  case pos =>
    have he : validate_opts o = .error (400, "Invalid fps.") := by
      simp only [validate_opts, if_neg h1, if_neg h2, if_neg h3, if_neg h4, if_neg h5,
        if_neg h6, if_neg h7, if_neg h8, if_neg h9, if_neg h10, if_pos h11]
    rw [he]
    refine ⟨⟨fun hex => ?_, fun hr => absurd (by tauto) h11⟩, fun e he2 => ?_,
      fun o2 ho => ?_⟩
    · obtain ⟨o2, ho⟩ := hex; exact Except.noConfusion ho
    · injection he2 with hh; subst hh; rfl
    · exact Except.noConfusion ho
  by_cases h12 : o.filter_preset ∉ ALLOWED_FILTERS
  case pos =>
    have he : validate_opts o = .error (400, "Invalid filter preset.") := by
      simp only [validate_opts, if_neg h1, if_neg h2, if_neg h3, if_neg h4, if_neg h5,
        if_neg h6, if_neg h7, if_neg h8, if_neg h9, if_neg h10, if_neg h11, if_pos h12]
    rw [he]
    refine ⟨⟨fun hex => ?_, fun hr => absurd (by tauto) h12⟩, fun e he2 => ?_,
      fun o2 ho => ?_⟩
    · obtain ⟨o2, ho⟩ := hex; exact Except.noConfusion ho
    · injection he2 with hh; subst hh; rfl
    · exact Except.noConfusion ho
  by_cases h13 : o.caption_template ∉ ALLOWED_CAPTION_TEMPLATES
  case pos =>
    have he : validate_opts o = .error (400, "Invalid caption template.") := by
      simp only [validate_opts, if_neg h1, if_neg h2, if_neg h3, if_neg h4, if_neg h5,
        if_neg h6, if_neg h7, if_neg h8, if_neg h9, if_neg h10, if_neg h11, if_neg h12,
        if_pos h13]
    rw [he]
    refine ⟨⟨fun hex => ?_, fun hr => absurd (by tauto) h13⟩, fun e he2 => ?_,
      fun o2 ho => ?_⟩
    · obtain ⟨o2, ho⟩ := hex; exact Except.noConfusion ho
    · injection he2 with hh; subst hh; rfl
    · exact Except.noConfusion ho
  by_cases h14 : o.caption_position ∉ ALLOWED_CAPTION_POSITIONS
  case pos =>
    have he : validate_opts o = .error (400, "Invalid caption position.") := by
      simp only [validate_opts, if_neg h1, if_neg h2, if_neg h3, if_neg h4, if_neg h5,
        if_neg h6, if_neg h7, if_neg h8, if_neg h9, if_neg h10, if_neg h11, if_neg h12,
        if_neg h13, if_pos h14]
    rw [he]
    refine ⟨⟨fun hex => ?_, fun hr => absurd (by tauto) h14⟩, fun e he2 => ?_,
      fun o2 ho => ?_⟩
    · obtain ⟨o2, ho⟩ := hex; exact Except.noConfusion ho
    · injection he2 with hh; subst hh; rfl
    · exact Except.noConfusion ho
  by_cases h15 : o.caption_size ∉ ALLOWED_CAPTION_SIZES
  case pos =>
    have he : validate_opts o = .error (400, "Invalid caption size.") := by
      simp only [validate_opts, if_neg h1, if_neg h2, if_neg h3, if_neg h4, if_neg h5,
        if_neg h6, if_neg h7, if_neg h8, if_neg h9, if_neg h10, if_neg h11, if_neg h12,
        if_neg h13, if_neg h14, if_pos h15]
    rw [he]
    refine ⟨⟨fun hex => ?_, fun hr => absurd (by tauto) h15⟩, fun e he2 => ?_,
      fun o2 ho => ?_⟩
    · obtain ⟨o2, ho⟩ := hex; exact Except.noConfusion ho
    · injection he2 with hh; subst hh; rfl
    · exact Except.noConfusion ho
  by_cases h16 : voiceover_mode_ok o.voiceover_mode = true
  case neg =>
    have he : validate_opts o = .error (400, "Invalid voiceover mode.") := by
      simp only [validate_opts, if_neg h1, if_neg h2, if_neg h3, if_neg h4, if_neg h5,
        if_neg h6, if_neg h7, if_neg h8, if_neg h9, if_neg h10, if_neg h11, if_neg h12,
        if_neg h13, if_neg h14, if_neg h15, if_neg h16]
    rw [he]
    refine ⟨⟨fun hex => ?_, fun hr => absurd (by tauto) h16⟩, fun e he2 => ?_,
      fun o2 ho => ?_⟩
    · obtain ⟨o2, ho⟩ := hex; exact Except.noConfusion ho
    · injection he2 with hh; subst hh; rfl
    · exact Except.noConfusion ho
  have he : validate_opts o = .ok { o with transition_type := some (
      if normalize_transition_type o.transition_type ∈ ALLOWED_TRANSITIONS then
        normalize_transition_type o.transition_type
      else "auto") } := by
    simp only [validate_opts, if_neg h1, if_neg h2, if_neg h3, if_neg h4, if_neg h5,
      if_neg h6, if_neg h7, if_neg h8, if_neg h9, if_neg h10, if_neg h11, if_neg h12,
      if_neg h13, if_neg h14, if_neg h15, if_pos h16]
  rw [he]
  refine ⟨⟨fun _ => ?_, fun _ => ⟨_, rfl⟩⟩, fun e he2 => Except.noConfusion he2,
    fun o2 ho => ?_⟩
  · refine ⟨?_, ?_, not_not.mp h2, not_not.mp h3, not_not.mp h4, not_not.mp h5,
      not_not.mp h6, not_not.mp h7, not_not.mp h8, not_not.mp h9, not_not.mp h10,
      not_not.mp h11, not_not.mp h12, not_not.mp h13, not_not.mp h14,
      not_not.mp h15, h16⟩
    · rcases not_or.mp h1 with ⟨ha, _⟩; exact not_lt.mp ha
    · rcases not_or.mp h1 with ⟨_, hb⟩; exact not_lt.mp hb
  · injection ho with hh
    subst hh
    refine ⟨rfl, ?_⟩
    split
    · assumption
    · decide

theorem validate_opts_spec_witness :
    ∃ o2, validate_opts valid_request = .ok o2 :=
  (validate_opts_spec valid_request).1.mpr
    ⟨by norm_num [valid_request], by norm_num [valid_request], by decide, by decide,
      by decide, by decide, by decide, by decide, by decide, by decide, by decide,
      by decide, by decide, by decide, by decide, by decide, by decide⟩

theorem normalize_segments_unsorted_counterexample :
    ¬ List.Pairwise (fun a b => a.start ≤ b.start)
      (normalize_segments [⟨0,20,"a"⟩,⟨1,12,"b"⟩,⟨2,13,"c"⟩] (-10)) := by
  norm_num [normalize_segments, norm_loop, List.insertionSort, List.orderedInsert,
    List.pairwise_cons]
